import Mathlib

/-!
Verification development for the PixelBooth photo-booth application
(`src/photobooth-app/app/page.tsx`, main variant, and `src/unnamed/part_000`,
the second variant of the same component).

The component is a single React function component.  We shallowly embed the
parts of it the claims are about:

* the static configuration tables (`photoLayoutConfig`, `filterMap`);
* the frame compositor `capturePhoto` (canvas drawing is modelled as the
  deterministic list of 2D-context operations the code issues; the encoded
  `dataUrl` of a captured photo is identified with that operation trace,
  which is a faithful model because the drawing backend is deterministic
  in those operations);
* the countdown scheduler `startCountdown` (a `setInterval` whose callback
  decrements the `countdown` state once per second, and on reaching zero
  clears itself and schedules one `capturePhoto` call via `setTimeout`;
  the interval closure captures the `capturePhoto` closure — and hence the
  filter/overlay selections — that were current when `startCountdown` ran,
  while the video/canvas refs are read live at fire time);
* the session state machine: the `useState` cells that the claims mention
  (`currentStep`, `selectedLayout`, `selectedFilter`, `selectedOverlay`,
  `timerSeconds`, `countdown`, `capturedPhotos`, `currentPhotoIndex`,
  `cameraError`, `isLoading`) plus the scheduler state, driven by the event
  handlers of the component (`handleLayoutSelection`, `handleRetake`,
  `handleNewSession`, `handleSessionComplete`, the back-to-selection and
  note-submit buttons) and by the asynchronous completions of `startCamera`;
* the device-handle bookkeeping of the two `startCamera` variants and the
  error classification of their `catch` blocks.

Purely presentational state (`curtainsOpen`, `hasCamera`, `isMobile`, the
session note text) and the print/download markup are not modelled; no claim
mentions them.  Timestamps of captured photos are omitted: the claims are
about photo content, order and count only.
-/

namespace PixelBooth

/-- `type PhotoLayout = "1x1" | "1x2" | "2x2" | "1x3"` (page.tsx line 14). -/
inductive PhotoLayout
  | l1x1
  | l1x2
  | l2x2
  | l1x3
deriving DecidableEq, Repr

/-- The `count` field of `photoLayoutConfig` (page.tsx lines 51-56):
the required shot count of each layout. -/
def layoutCount : PhotoLayout → Nat
  | .l1x1 => 1
  | .l1x2 => 2
  | .l2x2 => 4
  | .l1x3 => 3

/-- `type Filter = "none" | "vintage" | "blackwhite" | "warm" | "cool"`
(page.tsx line 15). -/
inductive Filter
  | none
  | vintage
  | blackwhite
  | warm
  | cool
deriving DecidableEq, Repr

/-- `type Overlay = "none" | "hat" | "glasses" | "frame1" | "frame2"`
(page.tsx line 16). -/
inductive Overlay
  | none
  | hat
  | glasses
  | frame1
  | frame2
deriving DecidableEq, Repr

/-- The `filterMap` table inside `capturePhoto` (page.tsx lines 220-226):
the CSS filter string assigned to `ctx.filter` for each filter kind. -/
def filterMap : Filter → String
  | .none => "none"
  | .vintage => "sepia(80%) contrast(120%) brightness(110%) saturate(130%)"
  | .blackwhite => "grayscale(100%) contrast(110%)"
  | .warm => "sepia(30%) saturate(140%) brightness(110%)"
  | .cool => "hue-rotate(180deg) saturate(120%) brightness(105%)"

/-- One video frame as seen by `capturePhoto`: an opaque pixel-content
identifier plus the dimensions the `<video>` element reports. -/
structure Frame where
  id : Nat
  videoWidth : Nat
  videoHeight : Nat
deriving DecidableEq, Repr

/-- `canvas.width = video.videoWidth || 640` (page.tsx line 213): JavaScript
`||` replaces a zero width by the 640 default. -/
def effWidth (fr : Frame) : Nat :=
  if fr.videoWidth = 0 then 640 else fr.videoWidth

/-- `canvas.height = video.videoHeight || 480` (page.tsx line 214). -/
def effHeight (fr : Frame) : Nat :=
  if fr.videoHeight = 0 then 480 else fr.videoHeight

/-- Effective canvas width as a rational, for the fractional coordinates
`canvas.width * 0.35` etc. used by the overlay drawing code. -/
def canvasW (fr : Frame) : ℚ := (effWidth fr : ℚ)

/-- Effective canvas height as a rational. -/
def canvasH (fr : Frame) : ℚ := (effHeight fr : ℚ)

/-- One 2D-rendering-context operation issued by `capturePhoto`.  Arc angles
are recorded in units of π: the source always passes `0, Math.PI * 2`,
recorded here as start `0`, end `2`. -/
inductive CanvasOp
  | clearRect (x y w h : ℚ)
  | setFilter (s : String)
  | drawImage (frameId : Nat) (x y w h : ℚ)
  | setFillStyle (s : String)
  | fillRect (x y w h : ℚ)
  | setStrokeStyle (s : String)
  | setLineWidth (v : ℚ)
  | beginPath
  | arc (cx cy r startPi endPi : ℚ)
  | moveTo (x y : ℚ)
  | lineTo (x y : ℚ)
  | stroke
deriving DecidableEq, Repr

/-- The overlay-drawing block of `capturePhoto` (page.tsx lines 235-253),
parameterized by canvas width and height.  `frame1`/`frame2` have no drawing
branch in the source and draw nothing, like `none`. -/
def overlayOps (o : Overlay) (w h : ℚ) : List CanvasOp :=
  match o with
  | .hat =>
      [ .setFillStyle "rgba(139, 69, 19, 0.9)",
        .fillRect (w * (25/100)) (h * (5/100)) (w * (5/10)) (h * (2/10)),
        .setFillStyle "rgba(101, 67, 33, 0.9)",
        .fillRect (w * (3/10)) (h * (8/100)) (w * (4/10)) (h * (12/100)) ]
  | .glasses =>
      [ .setStrokeStyle "#2c3e50",
        .setLineWidth (max 8 (w * (15/1000))),
        .beginPath,
        .arc (w * (35/100)) (h * (35/100)) (w * (8/100)) 0 2,
        .arc (w * (65/100)) (h * (35/100)) (w * (8/100)) 0 2,
        .stroke,
        .beginPath,
        .moveTo (w * (35/100) + w * (8/100)) (h * (35/100)),
        .lineTo (w * (65/100) - w * (8/100)) (h * (35/100)),
        .stroke ]
  | _ => []

/-- The full operation trace of one successful `capturePhoto` run
(page.tsx lines 211-255): clear the canvas, set the filter, draw the video
frame, reset the filter, then draw the selected overlay. -/
def compositeOps (fr : Frame) (f : Filter) (o : Overlay) : List CanvasOp :=
  [ .clearRect 0 0 (canvasW fr) (canvasH fr),
    .setFilter (filterMap f),
    .drawImage fr.id 0 0 (canvasW fr) (canvasH fr),
    .setFilter "none" ]
  ++ overlayOps o (canvasW fr) (canvasH fr)

/-- A captured still: the `dataUrl` produced by `canvas.toDataURL`,
identified with the deterministic operation trace that produced it
(timestamp omitted, see the file header). -/
structure CapturedPhoto where
  dataUrl : List CanvasOp
deriving DecidableEq, Repr

/-- The session stage: `currentStep` (page.tsx line 31). -/
inductive Step
  | landing
  | selection
  | camera
  | preview
  | note
deriving DecidableEq, Repr

/-- What the `setInterval` closure created by `startCountdown` captured:
the `capturePhoto` closure current at start time, i.e. the filter and
overlay selections in force when the countdown was started.  The video and
canvas refs are mutable refs read at fire time, so they are not stored. -/
structure CountdownTimer where
  filt : Filter
  over : Overlay
deriving DecidableEq, Repr

/-- The environment `capturePhoto` reads at fire time: whether the video and
canvas elements are mounted (`videoRef.current`/`canvasRef.current` non-null),
whether `canvas.getContext("2d")` succeeds, whether the draw/encode step
inside the `try` block throws, and the current video frame. -/
structure CaptureEnv where
  videoPresent : Bool
  canvasPresent : Bool
  ctxAvailable : Bool
  drawThrows : Bool
  frame : Frame
deriving DecidableEq, Repr

/-- The message set by `capturePhoto`'s `catch` block (page.tsx line 265). -/
def captureFailMsg : String := "Failed to capture photo. Please try again."

/-- The component state the claims are about (see the file header).
`timer` is the running `setInterval` of `startCountdown`, if any;
`pendingCaptures` are the `setTimeout(() => capturePhoto(), 100)` callbacks
scheduled but not yet executed. -/
structure BoothState where
  currentStep : Step
  selectedLayout : PhotoLayout
  selectedFilter : Filter
  selectedOverlay : Overlay
  timerSeconds : Nat
  countdown : Nat
  capturedPhotos : List CapturedPhoto
  currentPhotoIndex : Nat
  cameraError : Option String
  isLoading : Bool
  timer : Option CountdownTimer
  pendingCaptures : List CountdownTimer
deriving DecidableEq, Repr

/-- `capturePhoto` (page.tsx lines 196-267): return early if the video or
canvas element is missing; return early if no 2D context; on a throw inside
the `try` block set `cameraError`; otherwise append the composited photo and
increment the photo index. -/
def capturePhoto (env : CaptureEnv) (filt : Filter) (over : Overlay)
    (s : BoothState) : BoothState :=
  if !env.videoPresent || !env.canvasPresent then s
  else if !env.ctxAvailable then s
  else if env.drawThrows then { s with cameraError := some captureFailMsg }
  else
    { s with
        capturedPhotos := s.capturedPhotos ++ [⟨compositeOps env.frame filt over⟩],
        currentPhotoIndex := s.currentPhotoIndex + 1 }

/-- Classification performed by `startCamera`'s `catch` block
(page.tsx lines 164-178), keyed on the thrown error's `name`. -/
def cameraErrorMessage (errName : String) : String :=
  "Unable to access camera. " ++
    (if errName = "NotAllowedError" then
      "Please allow camera permissions and try again."
    else if errName = "NotFoundError" then
      "No camera device found."
    else if errName = "NotReadableError" then
      "Camera is already in use by another application."
    else
      "Please check your camera connection and permissions.")

/-- The bounded wait for the video's `loadedmetadata` event
(page.tsx line 161): `setTimeout(..., 10000)`. -/
def videoReadyTimeoutMs : Nat := 10000

/-- The `name` of the error the bounded wait rejects with: the code rejects
with `new Error("Video loading timeout")`, whose `name` is `"Error"`. -/
def videoLoadTimeoutErrorName : String := "Error"

/-- Events driving the component, one per handler / scheduled callback.
`tick` is one firing of the `setInterval` callback; `fire` is one firing of
a scheduled `setTimeout(() => capturePhoto(), 100)` callback, reading the
ref environment `env` current at that moment.  `cameraReady`/`cameraFail`
are the asynchronous completions of `startCamera` (its `finally` clears
`isLoading`; on failure the `catch` sets the classified `cameraError`). -/
inductive Event
  | startCountdown
  | tick
  | fire (env : CaptureEnv)
  | setFilter (f : Filter)
  | setOverlay (o : Overlay)
  | setTimer (n : Nat)
  | selectLayout (l : PhotoLayout)
  | cameraReady
  | cameraFail (errName : String)
  | backToSelection
  | reviewPhotos
  | noteSubmit
  | retake
  | newSession
deriving DecidableEq, Repr

/-- One small step of the component.  Each arm is the body of the
corresponding handler in page.tsx:
`startCountdown` lines 269-283 (guard `if (countdown > 0) return`);
`tick` lines 274-281; `fire` line 277 plus `capturePhoto`;
`selectLayout` = `handleLayoutSelection` lines 292-296 together with the
synchronous prefix of `startCamera` (set `isLoading`, clear `cameraError`);
`backToSelection` line 588 (`setCurrentStep("selection")` only);
`reviewPhotos` = `handleSessionComplete` lines 427-429;
`noteSubmit` = `handleNoteSubmit` lines 431-433;
`retake` = `handleRetake` lines 298-303;
`newSession` = `handleNewSession` lines 398-406 (note text and device
release are outside the modelled state). -/
def step : Event → BoothState → BoothState
  | .startCountdown, s =>
      if 0 < s.countdown then s
      else
        { s with
            countdown := s.timerSeconds,
            timer := some ⟨s.selectedFilter, s.selectedOverlay⟩ }
  | .tick, s =>
      match s.timer with
      | Option.none => s
      | some t =>
          if s.countdown ≤ 1 then
            { s with
                countdown := 0,
                timer := Option.none,
                pendingCaptures := s.pendingCaptures ++ [t] }
          else { s with countdown := s.countdown - 1 }
  | .fire env, s =>
      match s.pendingCaptures with
      | [] => s
      | t :: rest => capturePhoto env t.filt t.over { s with pendingCaptures := rest }
  | .setFilter f, s => { s with selectedFilter := f }
  | .setOverlay o, s => { s with selectedOverlay := o }
  | .setTimer n, s => { s with timerSeconds := n }
  | .selectLayout l, s =>
      { s with
          selectedLayout := l,
          currentStep := .camera,
          isLoading := true,
          cameraError := Option.none }
  | .cameraReady, s => { s with isLoading := false }
  | .cameraFail errName, s =>
      { s with isLoading := false, cameraError := some (cameraErrorMessage errName) }
  | .backToSelection, s => { s with currentStep := .selection }
  | .reviewPhotos, s => { s with currentStep := .note }
  | .noteSubmit, s => { s with currentStep := .preview }
  | .retake, s =>
      { s with
          capturedPhotos := [],
          currentPhotoIndex := 0,
          currentStep := .camera,
          cameraError := Option.none }
  | .newSession, s =>
      { s with
          capturedPhotos := [],
          currentPhotoIndex := 0,
          currentStep := .landing,
          cameraError := Option.none }

/-- Run a list of events from a state. -/
def run (evs : List Event) (s : BoothState) : BoothState :=
  evs.foldl (fun a e => step e a) s

/-- `n` firings of the interval callback. -/
def ticks (n : Nat) (s : BoothState) : BoothState :=
  run (List.replicate n .tick) s

/-- The initial render of the component: all `useState` defaults
(page.tsx lines 31-46). -/
def initialState : BoothState :=
  { currentStep := .landing,
    selectedLayout := .l1x1,
    selectedFilter := .none,
    selectedOverlay := .none,
    timerSeconds := 3,
    countdown := 0,
    capturedPhotos := [],
    currentPhotoIndex := 0,
    cameraError := Option.none,
    isLoading := false,
    timer := Option.none,
    pendingCaptures := [] }

/-- `isSessionComplete` (page.tsx line 442):
`capturedPhotos.length >= photoLayoutConfig[selectedLayout].count`. -/
def isSessionComplete (s : BoothState) : Bool :=
  decide (layoutCount s.selectedLayout ≤ s.capturedPhotos.length)

/-- The `disabled` condition of the capture button (page.tsx line 703):
`countdown > 0 || isLoading || !!cameraError`. -/
def captureButtonDisabled (s : BoothState) : Bool :=
  decide (0 < s.countdown) || s.isLoading || s.cameraError.isSome

/-- Device-handle bookkeeping for `startCamera`/`stopCamera`:
the `cameraStream` state cell, plus the set (as a list of stream ids) of
streams whose tracks have not been stopped. -/
structure DeviceState where
  cameraStream : Option Nat
  liveTracks : List Nat
deriving DecidableEq, Repr

/-- `if (cameraStream) cameraStream.getTracks().forEach(track => track.stop())`
(part_000 lines 106-109): stop the tracks of the currently held stream
without clearing the state cell. -/
def stopExistingStream (d : DeviceState) : DeviceState :=
  match d.cameraStream with
  | some sid => { d with liveTracks := d.liveTracks.filter (fun x => x != sid) }
  | Option.none => d

/-- Success path of `startCamera` in page.tsx (lines 90-182): a new stream is
acquired and installed with `setCameraStream(stream)`; the previously held
stream is not stopped anywhere in this function. -/
def startCameraPage (newId : Nat) (d : DeviceState) : DeviceState :=
  { cameraStream := some newId, liveTracks := d.liveTracks ++ [newId] }

/-- Success path of `startCamera` in part_000 (lines 101-189): it first stops
any existing stream (comment in source: "Stop any existing stream first"),
then acquires and installs the new one. -/
def startCameraPart0 (newId : Nat) (d : DeviceState) : DeviceState :=
  let d1 := stopExistingStream d
  { cameraStream := some newId, liveTracks := d1.liveTracks ++ [newId] }

/-- `stopCamera` (page.tsx lines 184-194): stop all tracks of the held
stream, then clear the state cell; a no-op when nothing is held. -/
def stopCamera (d : DeviceState) : DeviceState :=
  match d.cameraStream with
  | some sid =>
      { cameraStream := Option.none,
        liveTracks := d.liveTracks.filter (fun x => x != sid) }
  | Option.none => d

/-- Events whose handlers clear `capturedPhotos` (retake and new session). -/
def resetsPhotos : Event → Bool
  | .retake => true
  | .newSession => true
  | _ => false

/-- Events that only change the filter/overlay selection. -/
def selectionEvent : Event → Bool
  | .setFilter _ => true
  | .setOverlay _ => true
  | _ => false

/-- A fire-time environment in which video, canvas and context are all
available and nothing throws: a normal capture inside the camera stage. -/
def goodEnv : CaptureEnv :=
  { videoPresent := true, canvasPresent := true, ctxAvailable := true,
    drawThrows := false, frame := ⟨0, 640, 480⟩ }

/-- The fire-time environment after leaving the camera stage: the `<video>`
and hidden `<canvas>` are unmounted, so both refs are null. -/
def unmountedEnv : CaptureEnv :=
  { videoPresent := false, canvasPresent := false, ctxAvailable := true,
    drawThrows := false, frame := ⟨0, 640, 480⟩ }

/-- A fire-time environment whose draw/encode step throws. -/
def throwingEnv : CaptureEnv :=
  { videoPresent := true, canvasPresent := true, ctxAvailable := true,
    drawThrows := true, frame := ⟨0, 640, 480⟩ }

/-! ### Helper lemmas about the step semantics -/

lemma run_nil (s : BoothState) : run [] s = s := rfl

lemma run_cons (e : Event) (evs : List Event) (s : BoothState) :
    run (e :: evs) s = run evs (step e s) := rfl

lemma run_append (l1 l2 : List Event) (s : BoothState) :
    run (l1 ++ l2) s = run l2 (run l1 s) := by
  simp [run, List.foldl_append]

lemma ticks_succ (n : Nat) (s : BoothState) :
    ticks (n + 1) s = ticks n (step .tick s) := by
  simp [ticks, List.replicate_succ, run_cons]

/-- A tick with no interval running changes nothing. -/
lemma tick_of_timer_none (s : BoothState) (h : s.timer = Option.none) :
    step Event.tick s = s := by
  simp [step, h]

/-- Running the interval for exactly `countdown` ticks clears the interval,
zeroes the countdown and schedules exactly one capture carrying the timer's
captured selections. -/
lemma ticks_expire :
    ∀ (c : Nat) (s : BoothState) (t : CountdownTimer),
      s.timer = some t → s.countdown = c → 1 ≤ c →
      ticks c s =
        { s with
            countdown := 0,
            timer := Option.none,
            pendingCaptures := s.pendingCaptures ++ [t] } := by
  intro c
  induction c with
  | zero => intro s t _ _ h3; omega
  | succ n ih =>
    intro s t ht hc _
    rcases Nat.eq_zero_or_pos n with hn | hn
    · subst hn
      show ticks 1 s = _
      simp [ticks, List.replicate, run_cons, run_nil, step, ht, hc]
    · have hstep : step Event.tick s = { s with countdown := n } := by
        have h2 : ¬ s.countdown ≤ 1 := by omega
        have h3 : s.countdown - 1 = n := by omega
        simp [step, ht, h2, h3]
      rw [ticks_succ, hstep]
      exact ih { s with countdown := n } t ht rfl hn

/-- Selection-only events leave everything except the selections unchanged. -/
lemma selection_run_preserves :
    ∀ (evs : List Event) (s : BoothState),
      (∀ e ∈ evs, selectionEvent e = true) →
      (run evs s).countdown = s.countdown ∧
      (run evs s).timer = s.timer ∧
      (run evs s).pendingCaptures = s.pendingCaptures ∧
      (run evs s).capturedPhotos = s.capturedPhotos ∧
      (run evs s).timerSeconds = s.timerSeconds := by
  intro evs
  induction evs with
  | nil => intro s _; exact ⟨rfl, rfl, rfl, rfl, rfl⟩
  | cons e rest ih =>
    intro s h
    have he : selectionEvent e = true := h e (List.mem_cons_self e rest)
    have hrest : ∀ e' ∈ rest, selectionEvent e' = true := fun e' he' =>
      h e' (List.mem_cons_of_mem e he')
    rw [run_cons]
    have hstep :
        (step e s).countdown = s.countdown ∧
        (step e s).timer = s.timer ∧
        (step e s).pendingCaptures = s.pendingCaptures ∧
        (step e s).capturedPhotos = s.capturedPhotos ∧
        (step e s).timerSeconds = s.timerSeconds := by
      cases e <;> simp_all [selectionEvent, step]
    obtain ⟨h1, h2, h3, h4, h5⟩ := ih (step e s) hrest
    obtain ⟨g1, g2, g3, g4, g5⟩ := hstep
    exact ⟨h1.trans g1, h2.trans g2, h3.trans g3, h4.trans g4, h5.trans g5⟩

/-- Any single step that is not a retake/new-session only ever appends to
`capturedPhotos`. -/
lemma step_photos_append (e : Event) (s : BoothState)
    (h : resetsPhotos e = false) :
    ∃ t, (step e s).capturedPhotos = s.capturedPhotos ++ t := by
  cases e with
  | startCountdown =>
      by_cases hc : 0 < s.countdown <;> exact ⟨[], by simp [step, hc]⟩
  | tick =>
      cases ht : s.timer with
      | none => exact ⟨[], by simp [step, ht]⟩
      | some t =>
          by_cases hc : s.countdown ≤ 1 <;> exact ⟨[], by simp [step, ht, hc]⟩
  | fire env =>
      cases hp : s.pendingCaptures with
      | nil => exact ⟨[], by simp [step, hp]⟩
      | cons t rest =>
          by_cases h1 : (!env.videoPresent || !env.canvasPresent) = true
          · exact ⟨[], by simp [step, hp, capturePhoto, h1]⟩
          · by_cases h2 : (!env.ctxAvailable) = true
            · exact ⟨[], by simp [step, hp, capturePhoto, h1, h2]⟩
            · by_cases h3 : env.drawThrows = true
              · exact ⟨[], by simp [step, hp, capturePhoto, h1, h2, h3]⟩
              · exact ⟨[⟨compositeOps env.frame t.filt t.over⟩], by
                  simp [step, hp, capturePhoto, h1, h2, h3]⟩
  | retake => simp [resetsPhotos] at h
  | newSession => simp [resetsPhotos] at h
  | _ => exact ⟨[], by simp [step]⟩

/-- Every step preserves the code's pairing of photo count and index:
the only writes are the joint append/increment in `capturePhoto` and the
joint resets in retake/new-session. -/
lemma step_index_eq_length (e : Event) (s : BoothState)
    (h : s.currentPhotoIndex = s.capturedPhotos.length) :
    (step e s).currentPhotoIndex = (step e s).capturedPhotos.length := by
  cases e with
  | tick =>
      cases ht : s.timer with
      | none => simpa [step, ht] using h
      | some t =>
          by_cases hc : s.countdown ≤ 1 <;> simpa [step, ht, hc] using h
  | fire env =>
      cases hp : s.pendingCaptures with
      | nil => simpa [step, hp] using h
      | cons t rest =>
          by_cases h1 : (!env.videoPresent || !env.canvasPresent) = true
          · simpa [step, hp, capturePhoto, h1] using h
          · by_cases h2 : (!env.ctxAvailable) = true
            · simpa [step, hp, capturePhoto, h1, h2] using h
            · by_cases h3 : env.drawThrows = true
              · simpa [step, hp, capturePhoto, h1, h2, h3] using h
              · simp [step, hp, capturePhoto, h1, h2, h3, h]
  | startCountdown =>
      by_cases hc : 0 < s.countdown <;> simpa [step, hc] using h
  | retake => simp [step]
  | newSession => simp [step]
  | _ => simpa [step] using h

/-! ### Claim theorems -/

/-- C6: invoking `startCountdown` while a countdown is already running is a
silent no-op — the state, and in particular the running interval and its
remaining time, is unchanged and no error is raised, so inserting such a call
into any event sequence changes nothing; an accepted start schedules exactly
one capture: after the countdown's ticks the interval is cleared and exactly
one `capturePhoto` callback carrying the start-time selections is pending,
and once the interval is cleared further ticks change nothing, so `onExpire`
fires at most once per accepted `start()`. -/
theorem c6_thm :
    (∀ s : BoothState, 0 < s.countdown → step Event.startCountdown s = s) ∧
    (∀ (s : BoothState) (evs : List Event), 0 < s.countdown →
      run (Event.startCountdown :: evs) s = run evs s) ∧
    (∀ s : BoothState, s.countdown = 0 → 1 ≤ s.timerSeconds →
      (ticks s.timerSeconds (step Event.startCountdown s)).pendingCaptures =
          s.pendingCaptures ++ [⟨s.selectedFilter, s.selectedOverlay⟩] ∧
      (ticks s.timerSeconds (step Event.startCountdown s)).timer = Option.none) ∧
    (∀ s : BoothState, s.timer = Option.none → step Event.tick s = s) := by
  refine ⟨?_, ?_, ?_, ?_⟩
  · intro s h
    simp [step, h]
  · intro s evs h
    rw [run_cons]
    congr 1
    simp [step, h]
  · intro s h0 h1
    have hs : step Event.startCountdown s =
        { s with
            countdown := s.timerSeconds,
            timer := some ⟨s.selectedFilter, s.selectedOverlay⟩ } := by
      simp [step, h0]
    rw [hs,
      ticks_expire s.timerSeconds _ ⟨s.selectedFilter, s.selectedOverlay⟩ rfl rfl h1]
    exact ⟨rfl, rfl⟩
  · exact tick_of_timer_none

/-- A state with a countdown of 2 seconds already running. -/
def busyState : BoothState :=
  { initialState with countdown := 2, timer := some ⟨Filter.none, Overlay.none⟩ }

/-- Witness for C6 at a concrete state with a running countdown. -/
theorem c6_witness : step Event.startCountdown busyState = busyState :=
  c6_thm.1 busyState (by decide)

/-- C7: photos grow only by appending at the end — every step preserves the
equality between the displayed `currentPhotoIndex` and `photos.length`
(which holds initially), and over any event sequence of captures and other
non-reset events the earlier photo list is a prefix of the later one. -/
theorem c7_thm :
    (∀ (e : Event) (s : BoothState),
      s.currentPhotoIndex = s.capturedPhotos.length →
      (step e s).currentPhotoIndex = (step e s).capturedPhotos.length) ∧
    initialState.currentPhotoIndex = initialState.capturedPhotos.length ∧
    (∀ (evs : List Event) (s : BoothState),
      (∀ e ∈ evs, resetsPhotos e = false) →
      ∃ t, (run evs s).capturedPhotos = s.capturedPhotos ++ t) := by
  refine ⟨step_index_eq_length, rfl, ?_⟩
  intro evs
  induction evs with
  | nil =>
      intro s _
      exact ⟨[], by simp [run_nil]⟩
  | cons e rest ih =>
      intro s h
      obtain ⟨t1, ht1⟩ := step_photos_append e s (h e (List.mem_cons_self e rest))
      obtain ⟨t2, ht2⟩ :=
        ih (step e s) (fun e2 he2 => h e2 (List.mem_cons_of_mem e he2))
      exact ⟨t1 ++ t2, by rw [run_cons, ht2, ht1, List.append_assoc]⟩

/-- A state with one capture callback already scheduled. -/
def pendingState : BoothState :=
  { initialState with pendingCaptures := [⟨Filter.none, Overlay.none⟩] }

/-- Witness for C7: a concrete capture trace only appends. -/
theorem c7_witness :
    ∃ t, (run [Event.fire goodEnv] pendingState).capturedPhotos =
      pendingState.capturedPhotos ++ t :=
  c7_thm.2.2 [Event.fire goodEnv] pendingState (by decide)

/-- C9: for a capture with the glasses overlay the compositor issues, in
order: a clear, the selected filter's transform, the frame draw, a filter
reset, then the glasses recipe — two circular outlines centered at
(0.35·w, 0.35·h) and (0.65·w, 0.35·h) with radius 0.08·w, joined by a
straight bridge from (0.35·w + 0.08·w, 0.35·h) to (0.65·w − 0.08·w, 0.35·h);
and for identical (frame, filter, overlay) inputs the output trace is
identical (reproducibility). -/
theorem c9_thm :
    (∀ (fr : Frame) (f : Filter),
      compositeOps fr f Overlay.glasses =
        [ CanvasOp.clearRect 0 0 (canvasW fr) (canvasH fr),
          CanvasOp.setFilter (filterMap f),
          CanvasOp.drawImage fr.id 0 0 (canvasW fr) (canvasH fr),
          CanvasOp.setFilter "none",
          CanvasOp.setStrokeStyle "#2c3e50",
          CanvasOp.setLineWidth (max 8 ((15/1000) * canvasW fr)),
          CanvasOp.beginPath,
          CanvasOp.arc ((35/100) * canvasW fr) ((35/100) * canvasH fr)
            ((8/100) * canvasW fr) 0 2,
          CanvasOp.arc ((65/100) * canvasW fr) ((35/100) * canvasH fr)
            ((8/100) * canvasW fr) 0 2,
          CanvasOp.stroke,
          CanvasOp.beginPath,
          CanvasOp.moveTo ((35/100) * canvasW fr + (8/100) * canvasW fr)
            ((35/100) * canvasH fr),
          CanvasOp.lineTo ((65/100) * canvasW fr - (8/100) * canvasW fr)
            ((35/100) * canvasH fr),
          CanvasOp.stroke ]) ∧
    (∀ (fr1 fr2 : Frame) (f1 f2 : Filter) (o1 o2 : Overlay),
      fr1 = fr2 → f1 = f2 → o1 = o2 →
      compositeOps fr1 f1 o1 = compositeOps fr2 f2 o2) := by
  constructor
  · intro fr f
    simp [compositeOps, overlayOps, mul_comm]
  · intro fr1 fr2 f1 f2 o1 o2 h1 h2 h3
    rw [h1, h2, h3]

/-- Witness for C9 at a concrete frame, filter and overlay. -/
theorem c9_witness :
    compositeOps ⟨7, 800, 600⟩ Filter.vintage Overlay.glasses =
      compositeOps ⟨7, 800, 600⟩ Filter.vintage Overlay.glasses :=
  c9_thm.2 ⟨7, 800, 600⟩ ⟨7, 800, 600⟩ Filter.vintage Filter.vintage
    Overlay.glasses Overlay.glasses rfl rfl rfl

/-- C10: the filter and overlay baked into a captured photo are the ones
selected when its countdown was started — after an accepted start, any
sequence of filter/overlay re-selections performed while the countdown runs
leaves the scheduled capture's payload untouched, and the photo appended at
expiry is composited with the start-time selections. -/
theorem c10_thm :
    ∀ (s : BoothState) (evs : List Event) (env : CaptureEnv),
      s.countdown = 0 → 1 ≤ s.timerSeconds → s.pendingCaptures = [] →
      (∀ e ∈ evs, selectionEvent e = true) →
      env.videoPresent = true → env.canvasPresent = true →
      env.ctxAvailable = true → env.drawThrows = false →
      (step (Event.fire env)
          (ticks s.timerSeconds
            (run evs (step Event.startCountdown s)))).capturedPhotos =
        s.capturedPhotos ++
          [⟨compositeOps env.frame s.selectedFilter s.selectedOverlay⟩] := by
  intro s evs env h0 h1 hp hsel hv hc hx hd
  have hs : step Event.startCountdown s =
      { s with
          countdown := s.timerSeconds,
          timer := some ⟨s.selectedFilter, s.selectedOverlay⟩ } := by
    simp [step, h0]
  rw [hs]
  obtain ⟨p1, p2, p3, p4, _⟩ :=
    selection_run_preserves evs
      { s with
          countdown := s.timerSeconds,
          timer := some ⟨s.selectedFilter, s.selectedOverlay⟩ } hsel
  have hcnt :
      (run evs
        { s with
            countdown := s.timerSeconds,
            timer := some ⟨s.selectedFilter, s.selectedOverlay⟩ }).countdown =
        s.timerSeconds := p1
  have htm :
      (run evs
        { s with
            countdown := s.timerSeconds,
            timer := some ⟨s.selectedFilter, s.selectedOverlay⟩ }).timer =
        some ⟨s.selectedFilter, s.selectedOverlay⟩ := p2
  have hpend :
      (run evs
        { s with
            countdown := s.timerSeconds,
            timer := some ⟨s.selectedFilter, s.selectedOverlay⟩ }).pendingCaptures =
        [] := by
    rw [p3]; exact hp
  have hphotos :
      (run evs
        { s with
            countdown := s.timerSeconds,
            timer := some ⟨s.selectedFilter, s.selectedOverlay⟩ }).capturedPhotos =
        s.capturedPhotos := p4
  rw [ticks_expire s.timerSeconds _ ⟨s.selectedFilter, s.selectedOverlay⟩ htm hcnt h1]
  simp [step, capturePhoto, hv, hc, hx, hd, hpend, hphotos]

/-- A mid-session state about to start a countdown with vintage/hat
selected. -/
def c10Start : BoothState :=
  { initialState with
      currentStep := Step.camera,
      selectedFilter := Filter.vintage,
      selectedOverlay := Overlay.hat }

/-- Witness for C10: the filter/overlay are changed to cool/glasses while the
countdown runs, yet the captured photo is composited with vintage/hat. -/
theorem c10_witness :
    (step (Event.fire goodEnv)
        (ticks c10Start.timerSeconds
          (run [Event.setFilter Filter.cool, Event.setOverlay Overlay.glasses]
            (step Event.startCountdown c10Start)))).capturedPhotos =
      c10Start.capturedPhotos ++
        [⟨compositeOps goodEnv.frame Filter.vintage Overlay.hat⟩] :=
  c10_thm c10Start [Event.setFilter Filter.cool, Event.setOverlay Overlay.glasses]
    goodEnv rfl (by decide) rfl (by decide) rfl rfl rfl rfl

/-- One complete 1x1 capture round from the initial state: pick the single
layout, camera becomes ready, run one countdown to expiry and fire its
capture. -/
def c1Round1 : List Event :=
  [ Event.selectLayout PhotoLayout.l1x1, Event.cameraReady,
    Event.startCountdown, Event.tick, Event.tick, Event.tick,
    Event.fire goodEnv ]

/-- The same round followed by a second full countdown and capture, started
after the session is already complete. -/
def c1Round2 : List Event :=
  c1Round1 ++
    [ Event.startCountdown, Event.tick, Event.tick, Event.tick,
      Event.fire goodEnv ]

/-- C1 counterexample: from the initial state, after one full 1x1 round the
session is complete (`photos.length = requiredShotCount = 1`), the stage is
still Capturing, yet the capture button is enabled and `startCountdown`
accepts a new countdown; running that countdown appends a second photo, so
`photos.length` exceeds the layout's required shot count while still in the
Capturing stage. -/
theorem c1_counterexample :
    (run c1Round1 initialState).currentStep = Step.camera ∧
    (run c1Round1 initialState).capturedPhotos.length =
      layoutCount PhotoLayout.l1x1 ∧
    isSessionComplete (run c1Round1 initialState) = true ∧
    captureButtonDisabled (run c1Round1 initialState) = false ∧
    (step Event.startCountdown (run c1Round1 initialState)).countdown = 3 ∧
    (run c1Round2 initialState).currentStep = Step.camera ∧
    layoutCount PhotoLayout.l1x1 <
      (run c1Round2 initialState).capturedPhotos.length := by
  decide

/-- C1 (amended): the only guard in `startCountdown` is a running countdown —
while `countdown > 0` a new start is a no-op, but with `countdown = 0` a
start is accepted even when the session is already complete, so
`photos.length` is not in fact bounded by the required shot count. -/
theorem c1_amended_thm :
    ∀ s : BoothState,
      (0 < s.countdown → step Event.startCountdown s = s) ∧
      (s.countdown = 0 → isSessionComplete s = true →
        (step Event.startCountdown s).countdown = s.timerSeconds ∧
        (step Event.startCountdown s).timer =
          some ⟨s.selectedFilter, s.selectedOverlay⟩) := by
  intro s
  constructor
  · intro h
    simp [step, h]
  · intro h _
    simp [step, h]

/-- A complete 1x1 session still in the Capturing stage. -/
def completeState : BoothState :=
  { initialState with
      currentStep := Step.camera,
      capturedPhotos := [⟨compositeOps ⟨0, 640, 480⟩ Filter.none Overlay.none⟩],
      currentPhotoIndex := 1 }

/-- Witness for the amended C1: a countdown start is accepted on a concrete
complete session. -/
theorem c1_witness :
    (step Event.startCountdown completeState).countdown =
      completeState.timerSeconds ∧
    (step Event.startCountdown completeState).timer =
      some ⟨Filter.none, Overlay.none⟩ :=
  (c1_amended_thm completeState).2 rfl (by decide)

/-- Reach the selection stage with one photo already captured: capture one
photo in a 1x1 session, then a late device failure surfaces an error and the
user goes back to selection. -/
def c2Events : List Event :=
  c1Round1 ++ [Event.cameraFail "NotReadableError", Event.backToSelection]

/-- C2 counterexample: selecting a layout from the selection stage while a
photo from the aborted session is still present moves to the Capturing stage
without resetting `photos` or the photo index — both are still 1, not 0. -/
theorem c2_counterexample :
    (run c2Events initialState).currentStep = Step.selection ∧
    (run c2Events initialState).capturedPhotos.length = 1 ∧
    (run (c2Events ++ [Event.selectLayout PhotoLayout.l2x2])
        initialState).currentStep = Step.camera ∧
    (run (c2Events ++ [Event.selectLayout PhotoLayout.l2x2])
        initialState).capturedPhotos.length = 1 ∧
    (run (c2Events ++ [Event.selectLayout PhotoLayout.l2x2])
        initialState).currentPhotoIndex = 1 := by
  decide

/-- C2 (amended): `handleLayoutSelection` only records the layout, moves to
the Capturing stage and starts camera acquisition; it leaves `photos` and
`currentPhotoIndex` exactly as they were — the resets live in `handleRetake`
(and `handleNewSession`) instead. -/
theorem c2_amended_thm :
    ∀ (s : BoothState) (l : PhotoLayout),
      (step (Event.selectLayout l) s).capturedPhotos = s.capturedPhotos ∧
      (step (Event.selectLayout l) s).currentPhotoIndex = s.currentPhotoIndex ∧
      (step (Event.selectLayout l) s).currentStep = Step.camera ∧
      (step (Event.selectLayout l) s).selectedLayout = l ∧
      (step Event.retake s).capturedPhotos = [] ∧
      (step Event.retake s).currentPhotoIndex = 0 := by
  intro s l
  exact ⟨rfl, rfl, rfl, rfl, rfl, rfl⟩

/-- Reach the Note stage with a countdown still running: complete a 1x1
session, start a second countdown (accepted, see C1), then leave the
Capturing stage via the review button while the countdown runs. -/
def c3Events : List Event :=
  c1Round1 ++ [Event.startCountdown, Event.reviewPhotos]

/-- C3 counterexample: leaving the Capturing stage mid-countdown does not
cancel the countdown — the interval is still running with 3 seconds left
after the stage change, and at expiry the capture trigger is still invoked
(a `capturePhoto` callback is scheduled); the photo list is then left
unchanged only because the fired capture finds the video/canvas unmounted. -/
theorem c3_counterexample :
    (run c3Events initialState).currentStep = Step.note ∧
    (run c3Events initialState).countdown = 3 ∧
    (run c3Events initialState).timer = some ⟨Filter.none, Overlay.none⟩ ∧
    (run (c3Events ++ [Event.tick, Event.tick, Event.tick])
        initialState).pendingCaptures = [⟨Filter.none, Overlay.none⟩] ∧
    (run (c3Events ++
        [Event.tick, Event.tick, Event.tick, Event.fire unmountedEnv])
        initialState).capturedPhotos.length = 1 := by
  decide

/-- C3 (amended): there is no cancel operation — leaving the Capturing stage
(review or back-to-selection) leaves the running countdown untouched, so
`onExpire` still fires at expiry; the capture it triggers then returns
without touching the state because the video element is unmounted, so
`photos` is indeed left unchanged. -/
theorem c3_amended_thm :
    ∀ (s : BoothState) (env : CaptureEnv) (f : Filter) (o : Overlay),
      (step Event.reviewPhotos s).timer = s.timer ∧
      (step Event.reviewPhotos s).countdown = s.countdown ∧
      (step Event.backToSelection s).timer = s.timer ∧
      (step Event.backToSelection s).countdown = s.countdown ∧
      (env.videoPresent = false → capturePhoto env f o s = s) := by
  intro s env f o
  refine ⟨rfl, rfl, rfl, rfl, ?_⟩
  intro h
  simp [capturePhoto, h]

/-- Witness for the amended C3: a capture fired after unmounting changes
nothing at a concrete state. -/
theorem c3_witness :
    capturePhoto unmountedEnv Filter.none Overlay.none initialState =
      initialState :=
  (c3_amended_thm initialState unmountedEnv Filter.none Overlay.none).2.2.2.2 rfl

/-- C4 counterexample: the page.tsx `startCamera` re-acquires while stream 0
is held and never stops it — after installing stream 1 the tracks of both
streams are live, i.e. two device handles are held simultaneously (the
part_000 variant, by contrast, stops stream 0 first). -/
theorem c4_counterexample :
    startCameraPage 1 ⟨some 0, [0]⟩ = ⟨some 1, [0, 1]⟩ ∧
    0 ∈ (startCameraPage 1 ⟨some 0, [0]⟩).liveTracks ∧
    1 ∈ (startCameraPage 1 ⟨some 0, [0]⟩).liveTracks ∧
    (startCameraPart0 1 ⟨some 0, [0]⟩).liveTracks = [1] := by
  decide

/-- C4 (amended): only the part_000 variant of `startCamera` stops the tracks
of the previously held stream before installing the new one; the page.tsx
variant installs the new stream while leaving every previously live track
running, so a re-acquisition there leaks the prior device handle. -/
theorem c4_amended_thm :
    ∀ (d : DeviceState) (old newId : Nat),
      d.cameraStream = some old →
      (startCameraPart0 newId d).liveTracks =
        d.liveTracks.filter (fun x => x != old) ++ [newId] ∧
      (startCameraPart0 newId d).cameraStream = some newId ∧
      (startCameraPage newId d).liveTracks = d.liveTracks ++ [newId] := by
  intro d old newId h
  refine ⟨?_, rfl, rfl⟩
  simp [startCameraPart0, stopExistingStream, h]

/-- Witness for the amended C4 at a concrete device state. -/
theorem c4_witness :
    (startCameraPart0 5 ⟨some 2, [2]⟩).liveTracks =
      [2].filter (fun x => x != 2) ++ [5] ∧
    (startCameraPage 5 ⟨some 2, [2]⟩).liveTracks = [2] ++ [5] :=
  ⟨(c4_amended_thm ⟨some 2, [2]⟩ 2 5 rfl).1,
   (c4_amended_thm ⟨some 2, [2]⟩ 2 5 rfl).2.2⟩

/-- A mid-session Capturing state with no device error. -/
def midSession : BoothState := { initialState with currentStep := Step.camera }

/-- C5 counterexample: a capture attempt whose draw/encode step throws
appends nothing and keeps the Capturing stage, but it does change the device
status — `cameraError` flips from none to the capture-failure message, the
same state cell that surfaces device errors. -/
theorem c5_counterexample :
    midSession.cameraError = Option.none ∧
    (capturePhoto throwingEnv Filter.none Overlay.none midSession).cameraError =
      some captureFailMsg ∧
    (capturePhoto throwingEnv Filter.none Overlay.none
        midSession).capturedPhotos = midSession.capturedPhotos ∧
    (capturePhoto throwingEnv Filter.none Overlay.none
        midSession).currentStep = Step.camera := by
  decide

/-- C5 (amended): a failed capture appends nothing and never changes the
stage; when the 2D context cannot be obtained the state is left entirely
unchanged, while a throw of the draw/encode step additionally sets
`cameraError` to the capture-failure message (so the device-status cell is
not left untouched on that path). -/
theorem c5_amended_thm :
    ∀ (env : CaptureEnv) (f : Filter) (o : Overlay) (s : BoothState),
      (env.ctxAvailable = false → capturePhoto env f o s = s) ∧
      (capturePhoto env f o s).currentStep = s.currentStep ∧
      (env.drawThrows = true →
        (capturePhoto env f o s).capturedPhotos = s.capturedPhotos) ∧
      (env.videoPresent = true → env.canvasPresent = true →
        env.ctxAvailable = true → env.drawThrows = true →
        capturePhoto env f o s = { s with cameraError := some captureFailMsg }) := by
  intro env f o s
  refine ⟨?_, ?_, ?_, ?_⟩
  · intro h
    by_cases h1 : (!env.videoPresent || !env.canvasPresent) = true
    · simp [capturePhoto, h1]
    · simp [capturePhoto, h1, h]
  · unfold capturePhoto
    split_ifs <;> rfl
  · intro h
    unfold capturePhoto
    split_ifs <;> simp_all
  · intro hv hc hx hd
    simp [capturePhoto, hv, hc, hx, hd]

/-- Witness for the amended C5 at a concrete throwing capture. -/
theorem c5_witness :
    capturePhoto throwingEnv Filter.none Overlay.none midSession =
      { midSession with cameraError := some captureFailMsg } :=
  (c5_amended_thm throwingEnv Filter.none Overlay.none midSession).2.2.2
    rfl rfl rfl rfl

/-- C8 counterexample: the bounded wait rejects with a plain `Error` (name
`"Error"`), and `startCamera`'s classifier maps it to the same generic
fallback message as any unrecognized error — there is no distinct Timeout
classification. -/
theorem c8_counterexample :
    cameraErrorMessage videoLoadTimeoutErrorName =
      "Unable to access camera. Please check your camera connection and permissions." ∧
    cameraErrorMessage videoLoadTimeoutErrorName =
      cameraErrorMessage "SomeNeverClassifiedError" := by
  decide

/-- C8 (amended): device acquisition enforces a bounded 10000 ms wait for the
first usable frame, and failures are classified by the thrown error's name
into permission-denied, not-found and busy messages, with every other error —
including the bounded wait's expiry, which rejects with a plain `Error` —
mapped to the generic fallback message rather than a Timeout classification. -/
theorem c8_amended_thm :
    videoReadyTimeoutMs = 10000 ∧
    cameraErrorMessage "NotAllowedError" =
      "Unable to access camera. Please allow camera permissions and try again." ∧
    cameraErrorMessage "NotFoundError" =
      "Unable to access camera. No camera device found." ∧
    cameraErrorMessage "NotReadableError" =
      "Unable to access camera. Camera is already in use by another application." ∧
    (∀ errName : String,
      errName ≠ "NotAllowedError" → errName ≠ "NotFoundError" →
      errName ≠ "NotReadableError" →
      cameraErrorMessage errName =
        "Unable to access camera. Please check your camera connection and permissions.") := by
  refine ⟨rfl, rfl, rfl, rfl, ?_⟩
  intro n h1 h2 h3
  simp [cameraErrorMessage, h1, h2, h3]

/-- Witness for the amended C8: the timeout error name lands in the generic
fallback branch. -/
theorem c8_witness :
    cameraErrorMessage videoLoadTimeoutErrorName =
      "Unable to access camera. Please check your camera connection and permissions." :=
  c8_amended_thm.2.2.2.2 videoLoadTimeoutErrorName
    (by decide) (by decide) (by decide)

end PixelBooth
